import Mathlib

/-!
Verification development for the query-resolution pipeline of an
Amazon-seller analytics assistant.

The Python source is shallowly embedded:
* `Date` models `datetime.date` (proleptic Gregorian calendar);
  `subDays`/`addDays` model `date - timedelta(days=n)` / `+`;
  subtraction below 0001-01-01 yields `none`, mirroring Python's
  `OverflowError`.
* `DateCalculator.calculate` is the line-by-line embedding of
  `app/utils/date_calculator.py`; exceptions become `Except.error`.
* The graph nodes (`label_normalizer`, `message_analyzer`,
  `extractor_evaluator`, `classifier`) are state-passing functions on
  `AgentState`; each language-model call is an explicit
  `Except String α` outcome parameter.
-/

namespace Nyle

/-! ## Calendar model (datetime.date semantics) -/

/-- `calendar.isleap` -/
def isLeapYear (y : Nat) : Bool :=
  (y % 4 == 0 && y % 100 != 0) || y % 400 == 0

/-- `calendar.monthrange(y, m)[1]`: number of days in month `m` of year `y`
(0 for a month outside 1..12, which `datetime.date` never produces). -/
def monthLength (y m : Nat) : Nat :=
  match m with
  | 1 => 31
  | 2 => if isLeapYear y then 29 else 28
  | 3 => 31
  | 4 => 30
  | 5 => 31
  | 6 => 30
  | 7 => 31
  | 8 => 31
  | 9 => 30
  | 10 => 31
  | 11 => 30
  | 12 => 31
  | _ => 0

/-- A calendar date, as the `(year, month, day)` triple of `datetime.date`. -/
structure Date where
  year : Nat
  month : Nat
  day : Nat
deriving DecidableEq, Repr

/-- The invariant `datetime.date` guarantees by construction. -/
def Date.Valid (d : Date) : Prop :=
  1 ≤ d.year ∧ 1 ≤ d.month ∧ d.month ≤ 12 ∧ 1 ≤ d.day ∧
    d.day ≤ monthLength d.year d.month

instance (d : Date) : Decidable d.Valid := by
  unfold Date.Valid; infer_instance

/-- Chronological (= lexicographic) order on dates. -/
def Date.le (a b : Date) : Prop :=
  a.year < b.year ∨ (a.year = b.year ∧
    (a.month < b.month ∨ (a.month = b.month ∧ a.day ≤ b.day)))

instance (a b : Date) : Decidable (a.le b) := by
  unfold Date.le; infer_instance

/-- Strict chronological order on dates. -/
def Date.lt (a b : Date) : Prop :=
  a.year < b.year ∨ (a.year = b.year ∧
    (a.month < b.month ∨ (a.month = b.month ∧ a.day < b.day)))

instance (a b : Date) : Decidable (a.lt b) := by
  unfold Date.lt; infer_instance

/-- The calendar day before `d`; `none` below `0001-01-01`
(where `datetime.date` arithmetic raises `OverflowError`). -/
def prevDay (d : Date) : Option Date :=
  if 2 ≤ d.day then some ⟨d.year, d.month, d.day - 1⟩
  else if 2 ≤ d.month then some ⟨d.year, d.month - 1, monthLength d.year (d.month - 1)⟩
  else if 2 ≤ d.year then some ⟨d.year - 1, 12, 31⟩
  else none

/-- The calendar day after `d`. -/
def nextDay (d : Date) : Date :=
  if d.day < monthLength d.year d.month then ⟨d.year, d.month, d.day + 1⟩
  else if d.month < 12 then ⟨d.year, d.month + 1, 1⟩
  else ⟨d.year + 1, 1, 1⟩

/-- `d - timedelta(days = n)`. -/
def subDays (d : Date) : Nat → Option Date
  | 0 => some d
  | n + 1 =>
    match prevDay d with
    | none => none
    | some d' => subDays d' n

/-- `d + timedelta(days = n)`. -/
def addDays (d : Date) : Nat → Date
  | 0 => d
  | n + 1 => addDays (nextDay d) n

/-- Days strictly before January 1 of year `y` in the proleptic
Gregorian calendar (standard ordinal-date formula). -/
def daysBeforeYear (y : Nat) : Nat :=
  365 * (y - 1) + (y - 1) / 4 - (y - 1) / 100 + (y - 1) / 400

/-- Days of year `y` strictly before month `m`. -/
def daysBeforeMonth (y m : Nat) : Nat :=
  (List.range (m - 1)).foldl (fun acc i => acc + monthLength y (i + 1)) 0

/-- `date.toordinal()`: 0001-01-01 is day 1. -/
def toOrdinal (d : Date) : Nat :=
  daysBeforeYear d.year + daysBeforeMonth d.year d.month + d.day

/-- `date.weekday()`: Monday = 0 … Sunday = 6
(0001-01-01, ordinal 1, is a Monday). -/
def weekday (d : Date) : Nat :=
  (toOrdinal d + 6) % 7

/-! ## ISO rendering (`strftime` / f-strings) -/

/-- Zero-pad to two digits (`%m`, `%d`, `{n:02d}`). -/
def pad2 (n : Nat) : String :=
  if n < 10 then "0" ++ toString n else toString n

/-- Zero-pad to four digits (`%Y`). -/
def pad4 (n : Nat) : String :=
  if n < 10 then "000" ++ toString n
  else if n < 100 then "00" ++ toString n
  else if n < 1000 then "0" ++ toString n
  else toString n

/-- `d.strftime("%Y-%m-%d")`. -/
def strftimeYmd (d : Date) : String :=
  pad4 d.year ++ "-" ++ pad2 d.month ++ "-" ++ pad2 d.day

/-- An f-string of the shape used in `_last_year` / `_month_range`:
`f"{year}-{month:02d}-{day:02d}"` — year is rendered unpadded. -/
def fstringYmd (d : Date) : String :=
  toString d.year ++ "-" ++ pad2 d.month ++ "-" ++ pad2 d.day

/-! ## DateCalculator (app/utils/date_calculator.py)

Each `_xxx` helper method becomes a function of the injected
`current` date.  Helpers that perform `date - timedelta` arithmetic
return `Option`: `none` is Python's `OverflowError` below the minimum
date.  `calculate` turns `none` into `Except.error` (an uncaught
exception) exactly where the Python call would raise. -/

namespace DateCalculator

/-- `_today` -/
def today (current : Date) : Option (String × String) :=
  some (strftimeYmd current, strftimeYmd current)

/-- `_yesterday`: `current - timedelta(days=1)`. -/
def yesterday (current : Date) : Option (String × String) :=
  (subDays current 1).map fun y => (strftimeYmd y, strftimeYmd y)

/-- `_past_x_days`: `(current - timedelta(days=days-1), current)`. -/
def pastXDays (current : Date) (days : Int) : Option (String × String) :=
  (subDays current (days - 1).toNat).map fun s =>
    (strftimeYmd s, strftimeYmd current)

/-- `_this_week`: Monday of the current ISO week through its Sunday. -/
def thisWeek (current : Date) : Option (String × String) :=
  let wd := weekday current
  (subDays current wd).map fun monday =>
    (strftimeYmd monday, strftimeYmd (addDays monday 6))

/-- `_last_week`: Monday of the previous ISO week through its Sunday. -/
def lastWeek (current : Date) : Option (String × String) :=
  let wd := weekday current
  (subDays current (wd + 7)).map fun lastMonday =>
    (strftimeYmd lastMonday, strftimeYmd (addDays lastMonday 6))

/-- `_this_month`: `current.replace(day=1)` through
`current.replace(day=monthrange(y, m)[1])`. -/
def thisMonth (current : Date) : Option (String × String) :=
  let firstDay : Date := ⟨current.year, current.month, 1⟩
  let lastDay := monthLength current.year current.month
  some (strftimeYmd firstDay, strftimeYmd ⟨current.year, current.month, lastDay⟩)

/-- `_mtd`: first of the current month through `current`. -/
def mtd (current : Date) : Option (String × String) :=
  let firstDay : Date := ⟨current.year, current.month, 1⟩
  some (strftimeYmd firstDay, strftimeYmd current)

/-- `_last_month`: `replace(day=1) - timedelta(days=1)` is the last day of
the previous month; its `replace(day=1)` is that month's first day. -/
def lastMonth (current : Date) : Option (String × String) :=
  (subDays ⟨current.year, current.month, 1⟩ 1).map fun lastDayLastMonth =>
    (strftimeYmd ⟨lastDayLastMonth.year, lastDayLastMonth.month, 1⟩,
     strftimeYmd lastDayLastMonth)

/-- `_this_year`: `current.replace(month=1, day=1)` through `current`. -/
def thisYear (current : Date) : Option (String × String) :=
  some (strftimeYmd ⟨current.year, 1, 1⟩, strftimeYmd current)

/-- `_last_year`: `(f"{year}-01-01", f"{year}-12-31")` for `year = current.year - 1`. -/
def lastYear (current : Date) : Option (String × String) :=
  let year := current.year - 1
  some (fstringYmd ⟨year, 1, 1⟩, fstringYmd ⟨year, 12, 31⟩)

/-- `_ytd`: delegates to `_this_year`. -/
def ytd (current : Date) : Option (String × String) :=
  thisYear current

/-- `_month_range`:
`(f"{year}-{month:02d}-01", f"{year}-{month:02d}-{last_day:02d}")`. -/
def monthRange (current : Date) (month : Nat) : Option (String × String) :=
  let year := current.year
  let lastDay := monthLength year month
  some (fstringYmd ⟨year, month, 1⟩, fstringYmd ⟨year, month, lastDay⟩)

instance {ε α : Type} [DecidableEq ε] [DecidableEq α] : DecidableEq (Except ε α) :=
  fun a b =>
    match a, b with
    | .ok x, .ok y =>
      if h : x = y then isTrue (by rw [h])
      else isFalse (by intro hc; cases hc; exact h rfl)
    | .error x, .error y =>
      if h : x = y then isTrue (by rw [h])
      else isFalse (by intro hc; cases hc; exact h rfl)
    | .ok _, .error _ => isFalse Except.noConfusion
    | .error _, .ok _ => isFalse Except.noConfusion

/-- An uncaught `OverflowError` from Python date arithmetic. -/
def ofOpt (o : Option (String × String)) : Except String (String × String) :=
  match o with
  | some p => .ok p
  | none => .error "date value out of range"

/-- `DateCalculator.calculate(label, explicit_date, custom_days)` with the
anchor `current` injected; `ValueError` becomes `Except.error`. -/
def calculate (label : String) (explicitDate : Option String)
    (customDays : Option Int) (current : Date) :
    Except String (String × String) :=
  if label = "explicit_date" then
    -- `if not explicit_date: raise ValueError(...)`
    match explicitDate with
    | none => .error "Label 'explicit_date' requires explicit_date parameter"
    | some d =>
      if d = "" then .error "Label 'explicit_date' requires explicit_date parameter"
      else .ok (d, d)
  else if label = "past_days" then
    -- `if not custom_days or custom_days <= 0: raise ValueError(...)`
    match customDays with
    | none => .error "Label 'past_days' requires custom_days_count parameter (must be > 0)"
    | some n =>
      if n ≤ 0 then .error "Label 'past_days' requires custom_days_count parameter (must be > 0)"
      else ofOpt (pastXDays current n)
  else
    -- the `label_map` dictionary dispatch
    match label with
    | "today" => ofOpt (today current)
    | "yesterday" => ofOpt (yesterday current)
    | "this_week" => ofOpt (thisWeek current)
    | "last_week" => ofOpt (lastWeek current)
    | "this_month" => ofOpt (thisMonth current)
    | "mtd" => ofOpt (mtd current)
    | "last_month" => ofOpt (lastMonth current)
    | "this_year" => ofOpt (thisYear current)
    | "last_year" => ofOpt (lastYear current)
    | "ytd" => ofOpt (ytd current)
    | "past_7_days" => ofOpt (pastXDays current 7)
    | "past_14_days" => ofOpt (pastXDays current 14)
    | "past_30_days" => ofOpt (pastXDays current 30)
    | "past_60_days" => ofOpt (pastXDays current 60)
    | "past_90_days" => ofOpt (pastXDays current 90)
    | "past_180_days" => ofOpt (pastXDays current 180)
    | "january" => ofOpt (monthRange current 1)
    | "february" => ofOpt (monthRange current 2)
    | "march" => ofOpt (monthRange current 3)
    | "april" => ofOpt (monthRange current 4)
    | "may" => ofOpt (monthRange current 5)
    | "june" => ofOpt (monthRange current 6)
    | "july" => ofOpt (monthRange current 7)
    | "august" => ofOpt (monthRange current 8)
    | "september" => ofOpt (monthRange current 9)
    | "october" => ofOpt (monthRange current 10)
    | "november" => ofOpt (monthRange current 11)
    | "december" => ofOpt (monthRange current 12)
    | "default" => ofOpt (pastXDays current 7)
    | _ => .error ("Unknown date label: " ++ label)

end DateCalculator

/-- `get_all_date_labels()` from app/models/date_labels.py. -/
def allDateLabels : List String :=
  ["today", "yesterday", "this_week", "last_week",
   "this_month", "mtd", "last_month", "this_year", "last_year", "ytd",
   "past_7_days", "past_14_days", "past_30_days", "past_60_days",
   "past_90_days", "past_180_days",
   "past_days",
   "january", "february", "march", "april", "may", "june",
   "july", "august", "september", "october", "november", "december",
   "q1", "q2", "q3", "q4",
   "explicit_date", "default"]

/-! ## String utilities (Python `in`, `re` word-boundary searches) -/

/-- `needle.isPrefixOf` applied at every suffix: Python's `needle in hay`. -/
def listContainsSub (needle : List Char) : List Char → Bool
  | [] => needle.isEmpty
  | c :: t => needle.isPrefixOf (c :: t) || listContainsSub needle t

/-- Python's substring test `needle in hay`. -/
def strContains (hay needle : String) : Bool :=
  listContainsSub needle.data hay.data

/-- Python `str.lower()` (ASCII case mapping). -/
def strToLower (s : String) : String :=
  String.mk (s.data.map Char.toLower)

/-- Python `str.upper()` (ASCII case mapping). -/
def strToUpper (s : String) : String :=
  String.mk (s.data.map Char.toUpper)

/-- Python `str.strip()`: drop whitespace from both ends. -/
def strTrim (s : String) : String :=
  String.mk
    (((s.data.dropWhile Char.isWhitespace).reverse.dropWhile
        Char.isWhitespace).reverse)

/-- Regex word character `\w`: `[A-Za-z0-9_]`. -/
def isWordChar (c : Char) : Bool :=
  c.isAlphanum || c = '_'

/-- After matching `ASIN` case-insensitively: the regex tail `s?\b`. -/
def afterAsinOk : List Char → Bool
  | [] => true
  | c :: r =>
    if c.toLower = 's' then
      match r with
      | [] => true
      | c2 :: _ => !isWordChar c2
    else !isWordChar c

/-- Does `\bASINs?\b` (case-insensitive) match at the head of `l`
(the `\b` before the head is checked by the caller)? -/
def matchAsinAt (l : List Char) : Bool :=
  match l with
  | a :: s :: i :: n :: rest =>
    a.toLower = 'a' && s.toLower = 's' && i.toLower = 'i' && n.toLower = 'n' &&
      afterAsinOk rest
  | _ => false

/-- Scan for `\bASINs?\b`, tracking the previous character for `\b`. -/
def searchAsinWord (prev : Option Char) : List Char → Bool
  | [] => false
  | c :: t =>
    ((match prev with | none => true | some p => !isWordChar p) &&
      matchAsinAt (c :: t)) ||
    searchAsinWord (some c) t

/-- `re.search(r'\bASINs?\b', question, re.IGNORECASE)` as a Bool. -/
def hasAsinKeyword (question : String) : Bool :=
  searchAsinWord none question.data

/-- Regex class `[A-Z0-9]`. -/
def isUpperAlnum (c : Char) : Bool :=
  ('A' ≤ c && c ≤ 'Z') || c.isDigit

/-- Match a 10-character code `(B[A-Z0-9]{9})\b` (or `([A-Z0-9]{10})\b`
when `requireB = false`) at the head of `l`. -/
def matchAsinCode (requireB : Bool) (l : List Char) : Option String :=
  match l with
  | c0 :: c1 :: c2 :: c3 :: c4 :: c5 :: c6 :: c7 :: c8 :: c9 :: rest =>
    if (if requireB then c0 = 'B' else isUpperAlnum c0) &&
        [c1, c2, c3, c4, c5, c6, c7, c8, c9].all isUpperAlnum &&
        (match rest with | [] => true | r :: _ => !isWordChar r) then
      some (String.mk [c0, c1, c2, c3, c4, c5, c6, c7, c8, c9])
    else none
  | _ => none

/-- Leftmost `re.search` for the 10-character code patterns above. -/
def searchCode (requireB : Bool) (prev : Option Char) : List Char → Option String
  | [] => none
  | c :: t =>
    if (match prev with | none => true | some p => !isWordChar p) then
      match matchAsinCode requireB (c :: t) with
      | some code => some code
      | none => searchCode requireB (some c) t
    else searchCode requireB (some c) t

/-- `validate_asin`: exactly 10 characters matching `^[A-Z0-9]{10}$`
after upper-casing. -/
def validateAsin (asin : String) : Bool :=
  if asin = "" || asin.length ≠ 10 then false
  else (strToUpper asin).data.all isUpperAlnum

/-- `extract_asin_from_text`: primary regex `\b(B[A-Z0-9]{9})\b` on the
upper-cased text, then fallback `\b([A-Z0-9]{10})\b` validated. -/
def extractAsinFromText (text : String) : Option String :=
  let up := strToUpper text
  match searchCode true none up.data with
  | some code => some code
  | none =>
    match searchCode false none up.data with
    | some potential => if validateAsin potential then some potential else none
    | none => none

/-- Python truthiness of an `Optional[str]` value. -/
def optTruthy : Option String → Bool
  | none => false
  | some s => s ≠ ""

/-- `datetime.strptime(s, "%Y-%m-%d").date()`: `none` models the
`ValueError` on malformed input or out-of-range components. -/
def parseIsoDate (s : String) : Option Date :=
  match s.splitOn "-" with
  | [ys, ms, ds] =>
    match ys.toNat?, ms.toNat?, ds.toNat? with
    | some y, some m, some d =>
      if 1 ≤ y ∧ y ≤ 9999 ∧ 1 ≤ m ∧ m ≤ 12 ∧ 1 ≤ d ∧ d ≤ monthLength y m
      then some ⟨y, m, d⟩ else none
    | _, _, _ => none
  | _ => none

/-! ## Pipeline data model (app/models/agentState.py and node schemas) -/

/-- The LangGraph `AgentState` keys read or written by the embedded nodes.
Python keys carry a leading underscore for the `_normalizer_*` /
extraction-metadata fields; `none` models an absent or `None` key. -/
structure AgentState where
  question : String := ""
  interactionType : Option String := none
  dateStartLabel : Option String := none
  dateEndLabel : Option String := none
  compareDateStartLabel : Option String := none
  compareDateEndLabel : Option String := none
  explicitDateStart : Option String := none
  explicitDateEnd : Option String := none
  explicitCompareStart : Option String := none
  explicitCompareEnd : Option String := none
  customDaysCount : Option Int := none
  customCompareDaysCount : Option Int := none
  asin : Option String := none
  httpAsin : Option String := none
  questionType : Option String := none
  dateStart : Option String := none
  dateEnd : Option String := none
  compareDateStart : Option String := none
  compareDateEnd : Option String := none
  normalizerValid : Option Bool := none
  normalizerRetries : Option Nat := none
  normalizerFeedback : Option String := none
deriving DecidableEq, Repr

/-- Structured output schema of the label normalizer (`LabelExtraction`). -/
structure LabelExtraction where
  dateStartLabel : String
  dateEndLabel : String
  compareDateStartLabel : Option String := none
  compareDateEndLabel : Option String := none
  explicitDateStart : Option String := none
  explicitDateEnd : Option String := none
  explicitCompareStart : Option String := none
  explicitCompareEnd : Option String := none
  customDaysCount : Option Int := none
  customCompareDaysCount : Option Int := none
  asin : Option String := none
deriving DecidableEq, Repr

/-- Structured output schema of the message analyzer (`MessageAnalysis`). -/
structure MessageAnalysis where
  dateStartLabel : String
  dateEndLabel : String
  compareDateStartLabel : Option String := none
  compareDateEndLabel : Option String := none
  explicitDateStart : Option String := none
  explicitDateEnd : Option String := none
  explicitCompareStart : Option String := none
  explicitCompareEnd : Option String := none
  customDaysCount : Option Int := none
  asin : Option String := none
  questionType : String
deriving DecidableEq, Repr

/-- Structured output schema of the extractor evaluator (`EvaluationResult`). -/
structure EvaluationResult where
  isValid : Bool
  feedback : Option String := none
deriving DecidableEq, Repr

/-! ## Label normalizer node (app/graph/nodes/label_normalizer/node.py)

The language-model call is the explicit `llm` outcome parameter; the
ambient "now" used by `adjust_future_date` is the `currentDate`
parameter. -/

/-- `adjust_future_date` inside `label_normalizer_node`: a parsed date in
the future of `currentDate` is shifted back one year;
`replace(year=...)` failing (Feb 29) or a parse failure leaves the
string unchanged. -/
def adjustFutureDate (currentDate : Date) (ds : Option String) : Option String :=
  match ds with
  | none => none
  | some str =>
    if str = "" then some str
    else
      match parseIsoDate str with
      | none => some str
      | some dateObj =>
        if currentDate.lt dateObj then
          let adjusted : Date := ⟨dateObj.year - 1, dateObj.month, dateObj.day⟩
          if adjusted.Valid then some (strftimeYmd adjusted) else some str
        else some str

/-- The ASIN cross-check shared by the extractor nodes: prefer the regex
result from the raw question; otherwise drop a model ASIN that fails
`validate_asin`. -/
def fixupAsin (question : String) (modelAsin : Option String) : Option String :=
  if optTruthy modelAsin then
    match extractAsinFromText question with
    | some extracted => some extracted
    | none =>
      match modelAsin with
      | some a => if validateAsin a then some a else none
      | none => none
  else modelAsin

/-- `label_normalizer_node`. -/
def labelNormalizerNode (currentDate : Date) (s : AgentState)
    (llm : Except String LabelExtraction) : AgentState :=
  let retryCount := s.normalizerRetries.getD 0
  match llm with
  | .error e =>
    { s with normalizerValid := some false,
             normalizerRetries := some 0,
             normalizerFeedback := some ("Error: " ++ e) }
  | .ok extraction0 =>
    let ex1 :=
      { extraction0 with
        explicitDateStart :=
          if extraction0.dateStartLabel = "explicit_date"
          then adjustFutureDate currentDate extraction0.explicitDateStart
          else extraction0.explicitDateStart,
        explicitDateEnd :=
          if extraction0.dateEndLabel = "explicit_date"
          then adjustFutureDate currentDate extraction0.explicitDateEnd
          else extraction0.explicitDateEnd,
        explicitCompareStart :=
          if extraction0.compareDateStartLabel = some "explicit_date"
          then adjustFutureDate currentDate extraction0.explicitCompareStart
          else extraction0.explicitCompareStart,
        explicitCompareEnd :=
          if extraction0.compareDateEndLabel = some "explicit_date"
          then adjustFutureDate currentDate extraction0.explicitCompareEnd
          else extraction0.explicitCompareEnd }
    let ex2 := { ex1 with asin := fixupAsin s.question ex1.asin }
    let s1 :=
      { s with dateStartLabel := some ex2.dateStartLabel,
               dateEndLabel := some ex2.dateEndLabel,
               compareDateStartLabel := ex2.compareDateStartLabel,
               compareDateEndLabel := ex2.compareDateEndLabel,
               explicitDateStart := ex2.explicitDateStart,
               explicitDateEnd := ex2.explicitDateEnd,
               explicitCompareStart := ex2.explicitCompareStart,
               explicitCompareEnd := ex2.explicitCompareEnd,
               customDaysCount := ex2.customDaysCount,
               customCompareDaysCount := ex2.customCompareDaysCount,
               asin := ex2.asin }
    if retryCount = 0 then
      { s1 with normalizerValid := none,
                normalizerRetries := some 0,
                normalizerFeedback := none }
    else s1

/-! ## Message analyzer node (app/graph/nodes/message_analyzer/node.py) -/

/-- `message_analyzer_node`: on a model failure it falls back to the safe
defaults (`default` label pair, no ASIN, `metrics_query`). -/
def messageAnalyzerNode (s : AgentState)
    (llm : Except String MessageAnalysis) : AgentState :=
  match llm with
  | .error _ =>
    { s with dateStartLabel := some "default",
             dateEndLabel := some "default",
             compareDateStartLabel := none,
             compareDateEndLabel := none,
             explicitDateStart := none,
             explicitDateEnd := none,
             explicitCompareStart := none,
             explicitCompareEnd := none,
             customDaysCount := none,
             asin := none,
             questionType := some "metrics_query" }
  | .ok analysis0 =>
    let an1 := { analysis0 with asin := fixupAsin s.question analysis0.asin }
    let an2 :=
      if optTruthy an1.asin && an1.questionType = "metrics_query"
      then { an1 with questionType := "asin_product" }
      else an1
    { s with dateStartLabel := some an2.dateStartLabel,
             dateEndLabel := some an2.dateEndLabel,
             compareDateStartLabel := an2.compareDateStartLabel,
             compareDateEndLabel := an2.compareDateEndLabel,
             explicitDateStart := an2.explicitDateStart,
             explicitDateEnd := an2.explicitDateEnd,
             explicitCompareStart := an2.explicitCompareStart,
             explicitCompareEnd := an2.explicitCompareEnd,
             customDaysCount := an2.customDaysCount,
             asin := an2.asin,
             questionType := some an2.questionType }

/-! ## Extractor evaluator node (app/graph/nodes/extractor_evaluator/node.py) -/

/-- `extractor_evaluator_node`: manages the retry counter; forces
`is_valid = True` when entered with `retries >= 3` and on an evaluator
exception (fail-safe). -/
def extractorEvaluatorNode (s : AgentState)
    (llm : Except String EvaluationResult) : AgentState :=
  let currentRetries := s.normalizerRetries.getD 0
  if 3 ≤ currentRetries then
    { s with normalizerValid := some true,
             normalizerRetries := some currentRetries,
             normalizerFeedback :=
               some "Max retries exceeded - proceeding with current extraction" }
  else
    match llm with
    | .ok evaluation =>
      if !evaluation.isValid then
        { s with normalizerValid := some evaluation.isValid,
                 normalizerFeedback := evaluation.feedback,
                 normalizerRetries := some (currentRetries + 1) }
      else
        { s with normalizerValid := some evaluation.isValid,
                 normalizerFeedback := evaluation.feedback,
                 normalizerRetries := some currentRetries }
    | .error e =>
      { s with normalizerValid := some true,
               normalizerRetries := some currentRetries,
               normalizerFeedback := some ("Evaluation error: " ++ e) }

/-! ## Graph routing (app/graph/builder.py) -/

/-- `route_after_evaluation`: continue to the classifier when the
verdict is valid or retries reached 3, otherwise loop back. -/
def routeAfterEvaluation (s : AgentState) : String :=
  let isValid := s.normalizerValid.getD false
  let retries := s.normalizerRetries.getD 0
  if isValid || 3 ≤ retries then "classifier" else "label_normalizer"

/-- `route_by_question_type`: `routing_map.get(question_type, "other_handler")`
on `state.get("question_type", "other")`. -/
def routeByQuestionType (s : AgentState) : String :=
  let questionType := s.questionType.getD "other"
  if questionType = "metrics_query" then "metrics_query_handler"
  else if questionType = "compare_query" then "compare_query_handler"
  else if questionType = "asin_product" then "asin_product_handler"
  else if questionType = "hardcoded" then "hardcoded_response"
  else if questionType = "other" then "other_handler"
  else "other_handler"

/-! ## Intent classifier (app/graph/nodes/classifier/node.py and prompt.py) -/

/-- `HARDCODED_QUESTIONS` from classifier/prompt.py. -/
def HARDCODED_QUESTIONS : List String :=
  ["show me performance insights",
   "give me performance insights",
   "what was the highest performance day?",
   "what day had the best performance?",
   "can you compare my store performance in august over august to september?",
   "can you show me some insights about this product from oct 1 to oct 30",
   "yes"]

/-- `INSIGHT_KEYWORDS` from classifier/prompt.py. -/
def INSIGHT_KEYWORDS : List String :=
  ["compare", "compared", "comparison", "versus", "vs", "difference",
   "differences", "variance", "change", "shift", "shifted",
   "week over week", "month over month", "year over year", "loss",
   "losses", "why", "insights", "insight", "trend", "trends", "trending",
   "analyze", "analysis", "what happened", "dropped", "decreased",
   "increased"]

/-- `_has_insight_keywords`. -/
def hasInsightKeywords (question : String) : Bool :=
  INSIGHT_KEYWORDS.any fun keyword => strContains (strToLower question) keyword

/-- `_is_hardcoded`. -/
def isHardcoded (question : String) : Bool :=
  HARDCODED_QUESTIONS.contains (strTrim (strToLower question))

/-- The keyword list local to `_is_goal_query`. -/
def goalKeywords : List String :=
  ["goal", "goals", "set a goal", "create goal", "track goal",
   "my goal", "objective", "objectives", "target", "targets"]

/-- `_is_goal_query`. -/
def isGoalQuery (question : String) : Bool :=
  goalKeywords.any fun keyword => strContains (strTrim (strToLower question)) keyword

/-- `_is_asin_query`. -/
def isAsinQuery (question : String) (s : AgentState) : Bool :=
  optTruthy s.asin || optTruthy s.httpAsin || hasAsinKeyword question

/-- `_classify_metrics_vs_other`: the binary model call, validated; an
answer outside the two categories is replaced by `other_query`; an
exception propagates (no handler in the classifier). -/
def classifyMetricsVsOther (llm : Except String String) : Except String String :=
  match llm with
  | .error e => .error e
  | .ok content =>
    let questionType := strToLower (strTrim content)
    if !(questionType = "metrics_query" || questionType = "other_query")
    then .ok "other_query"
    else .ok questionType

/-- `classify_question_node`: the priority ladder (goal, dashboard-load,
hardcoded, ASIN, insight, then the binary model call). -/
def classifyQuestionNode (s : AgentState) (llm : Except String String) :
    Except String AgentState :=
  let question := s.question
  let interactionType := s.interactionType.getD ""
  if interactionType = "goal_created" then
    .ok { s with questionType := some "goal_query" }
  else if interactionType = "goal_created_failed" then
    .ok { s with questionType := some "goal_query" }
  else if isGoalQuery question then
    .ok { s with questionType := some "goal_query" }
  else if s.interactionType = some "dashboard_load" then
    .ok { s with questionType := some "dashboard_load" }
  else if isHardcoded question then
    .ok { s with questionType := some "hardcoded" }
  else if isAsinQuery question s then
    .ok { s with questionType := some "asin_product" }
  else if optTruthy s.compareDateStart || hasInsightKeywords question then
    .ok { s with questionType := some "insight_query" }
  else
    match classifyMetricsVsOther llm with
    | .ok questionType => .ok { s with questionType := some questionType }
    | .error e => .error e

/-! ## The retry loop (builder.py wiring of the three extraction nodes)

One iteration is `label_normalizer → message_analyzer →
extractor_evaluator` followed by `route_after_evaluation`; the three
language-model outcomes of iteration `k` are `oracle k`. -/

/-- The three model-call outcomes consumed by one loop iteration. -/
structure IterOracle where
  norm : Except String LabelExtraction
  msg : Except String MessageAnalysis
  eval : Except String EvaluationResult

/-- One pass through the three extraction-side nodes. -/
def loopIter (currentDate : Date) (s : AgentState) (o : IterOracle) : AgentState :=
  extractorEvaluatorNode
    (messageAnalyzerNode (labelNormalizerNode currentDate s o.norm) o.msg)
    o.eval

/-- Result of driving the retry loop: final state, number of extraction
attempts performed, and whether the loop exited to the classifier. -/
structure LoopResult where
  state : AgentState
  attempts : Nat
  exited : Bool
deriving Repr

/-- Drive the retry loop for at most `fuel` iterations, starting at
iteration index `k`. -/
def runLoop (currentDate : Date) (oracle : Nat → IterOracle) :
    Nat → AgentState → Nat → LoopResult
  | 0, s, k => ⟨s, k, false⟩
  | fuel + 1, s, k =>
    let s' := loopIter currentDate s (oracle k)
    if routeAfterEvaluation s' = "classifier" then ⟨s', k + 1, true⟩
    else runLoop currentDate oracle fuel s' (k + 1)

/-! ## Specification-side predicates -/

/-- The two strings are ordered when read as ISO dates: either they are
the same string, or they are renderings (in the two formats the
calculator uses) of chronologically ordered `Date`s. -/
def isoOrdered (s e : String) : Prop :=
  s = e ∨ ∃ a b : Date, a.le b ∧
    (s = strftimeYmd a ∨ s = fstringYmd a) ∧
    (e = strftimeYmd b ∨ e = fstringYmd b)

/-- An oracle on which every model call fails at the label normalizer
while the evaluator keeps judging the (stale) extraction invalid. -/
def failingNormOracle : IterOracle where
  norm := .error "connection reset"
  msg := .error "connection reset"
  eval := .ok { isValid := false, feedback := some "labels missing" }

/-- A state whose utterance carries both goal vocabulary and a product
identifier, with an out-of-band ASIN supplied as well. -/
def goalAsinState : AgentState :=
  { question := "Set a goal for ASIN B08XYZ1234", asin := some "B08XYZ1234" }

/-- An oracle on which extraction succeeds but the evaluator always
rejects. -/
def alwaysInvalidOracle : IterOracle where
  norm := .ok { dateStartLabel := "today", dateEndLabel := "today" }
  msg := .ok { dateStartLabel := "today", dateEndLabel := "today",
               questionType := "metrics_query" }
  eval := .ok { isValid := false, feedback := some "wrong label" }

/-! # Order lemmas for the calendar model -/

theorem Date.le_refl (d : Date) : d.le d := by
  unfold Date.le; omega

theorem Date.le_trans {a b c : Date} (h1 : a.le b) (h2 : b.le c) : a.le c := by
  unfold Date.le at h1 h2 ⊢; omega

theorem prevDay_le {d d' : Date} (h : prevDay d = some d') : d'.le d := by
  unfold prevDay at h
  split_ifs at h <;> cases h <;> (unfold Date.le; dsimp only; omega)

theorem subDays_le {n : Nat} {d d' : Date} (h : subDays d n = some d') : d'.le d := by
  induction n generalizing d with
  | zero =>
    unfold subDays at h
    cases h
    exact Date.le_refl d'
  | succ k ih =>
    unfold subDays at h
    cases hp : prevDay d with
    | none => rw [hp] at h; cases h
    | some dp =>
      rw [hp] at h
      exact Date.le_trans (ih h) (prevDay_le hp)

theorem le_nextDay (d : Date) : d.le (nextDay d) := by
  unfold nextDay
  split_ifs <;> (unfold Date.le; dsimp only; omega)

theorem le_addDays (d : Date) (n : Nat) : d.le (addDays d n) := by
  induction n generalizing d with
  | zero => exact Date.le_refl d
  | succ k ih => exact Date.le_trans (le_nextDay d) (ih (nextDay d))

theorem monthLength_pos {y m : Nat} (h1 : 1 ≤ m) (h2 : m ≤ 12) :
    1 ≤ monthLength y m := by
  interval_cases m <;> simp [monthLength] <;> split_ifs <;> omega

theorem subDays_one {d d' : Date} : subDays d 1 = some d' ↔ prevDay d = some d' := by
  unfold subDays
  cases prevDay d <;> simp [subDays]

/-! # Ordering of each DateCalculator helper -/

theorem isoOrdered_strf {a b : Date} (hab : a.le b) :
    isoOrdered (strftimeYmd a) (strftimeYmd b) :=
  Or.inr ⟨a, b, hab, Or.inl rfl, Or.inl rfl⟩

theorem isoOrdered_fstr {a b : Date} (hab : a.le b) :
    isoOrdered (fstringYmd a) (fstringYmd b) :=
  Or.inr ⟨a, b, hab, Or.inr rfl, Or.inr rfl⟩

theorem isoOrdered_refl (s : String) : isoOrdered s s :=
  Or.inl rfl

theorem ofOpt_ok {o : Option (String × String)} {p : String × String}
    (h : DateCalculator.ofOpt o = .ok p) : o = some p := by
  cases o with
  | none => exact Except.noConfusion h
  | some q => simpa [DateCalculator.ofOpt] using h

theorem today_ordered {current : Date} {s e : String}
    (h : DateCalculator.today current = some (s, e)) : isoOrdered s e := by
  unfold DateCalculator.today at h
  simp only [Option.some.injEq, Prod.mk.injEq] at h
  obtain ⟨h1, h2⟩ := h
  subst h1; subst h2
  exact isoOrdered_refl _

theorem yesterday_ordered {current : Date} {s e : String}
    (h : DateCalculator.yesterday current = some (s, e)) : isoOrdered s e := by
  unfold DateCalculator.yesterday at h
  rw [Option.map_eq_some'] at h
  obtain ⟨y, _, hf⟩ := h
  simp only [Prod.mk.injEq] at hf
  obtain ⟨h1, h2⟩ := hf
  subst h1; subst h2
  exact isoOrdered_refl _

theorem pastXDays_ordered {current : Date} {n : Int} {s e : String}
    (h : DateCalculator.pastXDays current n = some (s, e)) : isoOrdered s e := by
  unfold DateCalculator.pastXDays at h
  rw [Option.map_eq_some'] at h
  obtain ⟨st, hst, hf⟩ := h
  simp only [Prod.mk.injEq] at hf
  obtain ⟨h1, h2⟩ := hf
  subst h1; subst h2
  exact isoOrdered_strf (subDays_le hst)

theorem thisWeek_ordered {current : Date} {s e : String}
    (h : DateCalculator.thisWeek current = some (s, e)) : isoOrdered s e := by
  unfold DateCalculator.thisWeek at h
  rw [Option.map_eq_some'] at h
  obtain ⟨monday, _, hf⟩ := h
  simp only [Prod.mk.injEq] at hf
  obtain ⟨h1, h2⟩ := hf
  subst h1; subst h2
  exact isoOrdered_strf (le_addDays monday 6)

theorem lastWeek_ordered {current : Date} {s e : String}
    (h : DateCalculator.lastWeek current = some (s, e)) : isoOrdered s e := by
  unfold DateCalculator.lastWeek at h
  rw [Option.map_eq_some'] at h
  obtain ⟨lastMonday, _, hf⟩ := h
  simp only [Prod.mk.injEq] at hf
  obtain ⟨h1, h2⟩ := hf
  subst h1; subst h2
  exact isoOrdered_strf (le_addDays lastMonday 6)

theorem thisMonth_ordered {current : Date} (hv : current.Valid) {s e : String}
    (h : DateCalculator.thisMonth current = some (s, e)) : isoOrdered s e := by
  obtain ⟨_, hm1, hm2, _, _⟩ := hv
  unfold DateCalculator.thisMonth at h
  simp only [Option.some.injEq, Prod.mk.injEq] at h
  obtain ⟨h1, h2⟩ := h
  subst h1; subst h2
  refine isoOrdered_strf ?_
  unfold Date.le; dsimp only
  have := @monthLength_pos current.year _ hm1 hm2
  omega

theorem mtd_ordered {current : Date} (hv : current.Valid) {s e : String}
    (h : DateCalculator.mtd current = some (s, e)) : isoOrdered s e := by
  obtain ⟨_, _, _, hd, _⟩ := hv
  unfold DateCalculator.mtd at h
  simp only [Option.some.injEq, Prod.mk.injEq] at h
  obtain ⟨h1, h2⟩ := h
  subst h1; subst h2
  refine isoOrdered_strf ?_
  unfold Date.le; dsimp only
  omega

theorem lastMonth_ordered {current : Date} (hv : current.Valid) {s e : String}
    (h : DateCalculator.lastMonth current = some (s, e)) : isoOrdered s e := by
  obtain ⟨hy, hm1, hm2, _, _⟩ := hv
  unfold DateCalculator.lastMonth at h
  rw [Option.map_eq_some'] at h
  obtain ⟨lastDayLastMonth, hL, hf⟩ := h
  simp only [Prod.mk.injEq] at hf
  obtain ⟨h1, h2⟩ := hf
  subst h1; subst h2
  rw [subDays_one] at hL
  unfold prevDay at hL
  have hlen := @monthLength_pos current.year (current.month - 1)
  split_ifs at hL with hc1 hc2 hc3 <;> first
    | exact Option.noConfusion hL
    | · cases hL
        refine isoOrdered_strf ?_
        unfold Date.le at *; dsimp only at *
        first
          | (have hp := hlen (by omega) (by omega)
             omega)
          | omega

theorem thisYear_ordered {current : Date} (hv : current.Valid) {s e : String}
    (h : DateCalculator.thisYear current = some (s, e)) : isoOrdered s e := by
  obtain ⟨_, hm1, _, hd, _⟩ := hv
  unfold DateCalculator.thisYear at h
  simp only [Option.some.injEq, Prod.mk.injEq] at h
  obtain ⟨h1, h2⟩ := h
  subst h1; subst h2
  refine isoOrdered_strf ?_
  unfold Date.le; dsimp only
  omega

theorem lastYear_ordered {current : Date} {s e : String}
    (h : DateCalculator.lastYear current = some (s, e)) : isoOrdered s e := by
  unfold DateCalculator.lastYear at h
  simp only [Option.some.injEq, Prod.mk.injEq] at h
  obtain ⟨h1, h2⟩ := h
  subst h1; subst h2
  refine isoOrdered_fstr ?_
  unfold Date.le; dsimp only
  omega

theorem monthRange_ordered {current : Date} {month : Nat}
    (hm1 : 1 ≤ month) (hm2 : month ≤ 12) {s e : String}
    (h : DateCalculator.monthRange current month = some (s, e)) : isoOrdered s e := by
  unfold DateCalculator.monthRange at h
  simp only [Option.some.injEq, Prod.mk.injEq] at h
  obtain ⟨h1, h2⟩ := h
  subst h1; subst h2
  refine isoOrdered_fstr ?_
  unfold Date.le; dsimp only
  have := @monthLength_pos current.year _ hm1 hm2
  omega

/-! # Claim C3 -/

/-- Claim C3: for every input to `DateCalculator.calculate` (any label with
any metadata) and every valid anchor date, whenever a pair is returned it
satisfies `date_start <= date_end` compared as ISO dates; a comparison
pair is produced by the same function, so it obeys the same ordering. -/
theorem calculate_pair_ordered (label : String) (explicitDate : Option String)
    (customDays : Option Int) (current : Date) (hv : current.Valid)
    {s e : String}
    (h : DateCalculator.calculate label explicitDate customDays current =
      .ok (s, e)) :
    isoOrdered s e := by
  unfold DateCalculator.calculate at h
  split_ifs at h with hL1 hL2
  · rcases explicitDate with _ | d
    · exact Except.noConfusion h
    · dsimp only at h
      split_ifs at h with hd
      simp only [Except.ok.injEq, Prod.mk.injEq] at h
      obtain ⟨h1, h2⟩ := h
      subst h1; subst h2
      exact isoOrdered_refl _
  · rcases customDays with _ | n
    · exact Except.noConfusion h
    · dsimp only at h
      split_ifs at h with hn
      exact pastXDays_ordered (ofOpt_ok h)
  · split at h
    · exact today_ordered (ofOpt_ok h)
    · exact yesterday_ordered (ofOpt_ok h)
    · exact thisWeek_ordered (ofOpt_ok h)
    · exact lastWeek_ordered (ofOpt_ok h)
    · exact thisMonth_ordered hv (ofOpt_ok h)
    · exact mtd_ordered hv (ofOpt_ok h)
    · exact lastMonth_ordered hv (ofOpt_ok h)
    · exact thisYear_ordered hv (ofOpt_ok h)
    · exact lastYear_ordered (ofOpt_ok h)
    · exact thisYear_ordered hv (ofOpt_ok h)
    · exact pastXDays_ordered (ofOpt_ok h)
    · exact pastXDays_ordered (ofOpt_ok h)
    · exact pastXDays_ordered (ofOpt_ok h)
    · exact pastXDays_ordered (ofOpt_ok h)
    · exact pastXDays_ordered (ofOpt_ok h)
    · exact pastXDays_ordered (ofOpt_ok h)
    · exact monthRange_ordered (by omega) (by omega) (ofOpt_ok h)
    · exact monthRange_ordered (by omega) (by omega) (ofOpt_ok h)
    · exact monthRange_ordered (by omega) (by omega) (ofOpt_ok h)
    · exact monthRange_ordered (by omega) (by omega) (ofOpt_ok h)
    · exact monthRange_ordered (by omega) (by omega) (ofOpt_ok h)
    · exact monthRange_ordered (by omega) (by omega) (ofOpt_ok h)
    · exact monthRange_ordered (by omega) (by omega) (ofOpt_ok h)
    · exact monthRange_ordered (by omega) (by omega) (ofOpt_ok h)
    · exact monthRange_ordered (by omega) (by omega) (ofOpt_ok h)
    · exact monthRange_ordered (by omega) (by omega) (ofOpt_ok h)
    · exact monthRange_ordered (by omega) (by omega) (ofOpt_ok h)
    · exact monthRange_ordered (by omega) (by omega) (ofOpt_ok h)
    · exact pastXDays_ordered (ofOpt_ok h)
    · exact Except.noConfusion h

/-- Claim C3 witness: the theorem applied at the concrete anchor
2025-01-15 with label `today`. -/
theorem calculate_pair_ordered_witness :
    isoOrdered "2025-01-15" "2025-01-15" :=
  calculate_pair_ordered "today" none none ⟨2025, 1, 15⟩ (by decide) (by decide)

/-! # Claim C2 -/

/-- Claim C2: the four quarter members of the closed vocabulary reach
the `Unknown date label` error branch of `DateCalculator.calculate`
(with any anchor and no metadata), although they are members of
`get_all_date_labels()`; the branch is not unreachable as documented. -/
theorem quarter_labels_reach_unknown_branch (current : Date) :
    ("q1" ∈ allDateLabels ∧ "q2" ∈ allDateLabels ∧
     "q3" ∈ allDateLabels ∧ "q4" ∈ allDateLabels) ∧
    DateCalculator.calculate "q1" none none current =
      .error "Unknown date label: q1" ∧
    DateCalculator.calculate "q2" none none current =
      .error "Unknown date label: q2" ∧
    DateCalculator.calculate "q3" none none current =
      .error "Unknown date label: q3" ∧
    DateCalculator.calculate "q4" none none current =
      .error "Unknown date label: q4" := by
  refine ⟨by decide, ?_, ?_, ?_, ?_⟩ <;> rfl

/-! # Claim C6 -/

/-- Claim C6: for every anchor date, each fixed-window label is sugar for
`past_days` with the corresponding count, and `default` equals
`past_7_days`. -/
theorem fixed_windows_are_past_days_sugar (current : Date) :
    (DateCalculator.calculate "past_7_days" none none current =
      DateCalculator.calculate "past_days" none (some 7) current) ∧
    (DateCalculator.calculate "past_14_days" none none current =
      DateCalculator.calculate "past_days" none (some 14) current) ∧
    (DateCalculator.calculate "past_30_days" none none current =
      DateCalculator.calculate "past_days" none (some 30) current) ∧
    (DateCalculator.calculate "past_60_days" none none current =
      DateCalculator.calculate "past_days" none (some 60) current) ∧
    (DateCalculator.calculate "past_90_days" none none current =
      DateCalculator.calculate "past_days" none (some 90) current) ∧
    (DateCalculator.calculate "past_180_days" none none current =
      DateCalculator.calculate "past_days" none (some 180) current) ∧
    (DateCalculator.calculate "default" none none current =
      DateCalculator.calculate "past_7_days" none none current) := by
  refine ⟨?_, ?_, ?_, ?_, ?_, ?_, ?_⟩ <;> rfl

/-! # Claim C7 -/

/-- Claim C7 counterexample: with anchor 2025-12-22 (a Monday),
`calculate("last_week")` does not return the pair the specification
scenario states. -/
theorem last_week_scenario_refuted :
    DateCalculator.calculate "last_week" none none ⟨2025, 12, 22⟩ ≠
      .ok ("2025-12-08", "2025-12-14") := by
  decide

/-- Claim C7 amended: with anchor 2025-12-22, `calculate("last_week")`
returns `("2025-12-15", "2025-12-21")` — the Monday-to-Sunday week
immediately before the anchor's week. -/
theorem last_week_scenario_actual :
    DateCalculator.calculate "last_week" none none ⟨2025, 12, 22⟩ =
      .ok ("2025-12-15", "2025-12-21") := by
  decide

/-! # Claim C8 -/

/-- Claim C8 counterexample: with anchor 2025-12-22,
`calculate("past_days", custom_days=23)` does not return the pair the
specification scenario states. -/
theorem past_days_23_scenario_refuted :
    DateCalculator.calculate "past_days" none (some 23) ⟨2025, 12, 22⟩ ≠
      .ok ("2025-11-29", "2025-12-22") := by
  decide

/-- Claim C8 amended: with anchor 2025-12-22,
`calculate("past_days", custom_days=23)` returns
`("2025-11-30", "2025-12-22")`, the 23-day window ending at the anchor
(start = anchor − 22 days). -/
theorem past_days_23_scenario_actual :
    DateCalculator.calculate "past_days" none (some 23) ⟨2025, 12, 22⟩ =
      .ok ("2025-11-30", "2025-12-22") := by
  decide

/-! # Claim C4 -/

/-- Claim C4: when the message analyzer's model call fails, the node
still returns an updated state (no abort): the label pair falls back to
`default` (which the calculator resolves exactly as the past-7-days
window), the comparison labels and all metadata are cleared, and the
product identifier is absent. -/
theorem analyzer_failure_falls_back_to_default (s : AgentState) (e : String)
    (current : Date) :
    (messageAnalyzerNode s (.error e)).dateStartLabel = some "default" ∧
    (messageAnalyzerNode s (.error e)).dateEndLabel = some "default" ∧
    (messageAnalyzerNode s (.error e)).compareDateStartLabel = none ∧
    (messageAnalyzerNode s (.error e)).compareDateEndLabel = none ∧
    (messageAnalyzerNode s (.error e)).customDaysCount = none ∧
    (messageAnalyzerNode s (.error e)).asin = none ∧
    DateCalculator.calculate "default" none none current =
      DateCalculator.ofOpt (DateCalculator.pastXDays current 7) :=
  ⟨rfl, rfl, rfl, rfl, rfl, rfl, rfl⟩

/-! # Claim C5 -/

/-- Claim C5 counterexample: an answer outside the two expected values
makes `_classify_metrics_vs_other` return `other_query`, not the
metrics-query category the claim states. -/
theorem invalid_binary_answer_not_metrics :
    classifyMetricsVsOther (.ok "banana") = .ok "other_query" ∧
    (Except.ok "other_query" : Except String String) ≠ .ok "metrics_query" :=
  ⟨rfl, by decide⟩

/-- Claim C5 amended: when the residual binary model call returns an
answer outside the two expected values, the classifier assigns the
`other_query` category (not metrics-query); a failure of the call is not
caught and propagates out of the classifier. -/
theorem invalid_binary_answer_defaults_other (resp e : String) :
    (strToLower (strTrim resp) ≠ "metrics_query" →
      strToLower (strTrim resp) ≠ "other_query" →
      classifyMetricsVsOther (.ok resp) = .ok "other_query") ∧
    classifyMetricsVsOther (.error e) = .error e := by
  constructor
  · intro h1 h2
    unfold classifyMetricsVsOther
    simp [h1, h2]
  · rfl

/-- Claim C5 witness: the amended theorem applied to the concrete answer
`banana` and the concrete failure `timeout`. -/
theorem invalid_binary_answer_defaults_other_witness :
    classifyMetricsVsOther (.ok "banana") = .ok "other_query" ∧
    classifyMetricsVsOther (.error "timeout") = .error "timeout" :=
  ⟨(invalid_binary_answer_defaults_other "banana" "timeout").1
      (by decide) (by decide),
   (invalid_binary_answer_defaults_other "banana" "timeout").2⟩

/-! # Claim C10 -/

/-- Claim C10: the router's lookup is total — every state is dispatched
to one of the five registered handlers — and the classifier outputs
without an entry in the routing map (`goal_query`, `dashboard_load`,
`insight_query`, `other_query`) all fall back to `other_handler`. -/
theorem router_total_with_default (s : AgentState) :
    (routeByQuestionType s = "metrics_query_handler" ∨
     routeByQuestionType s = "compare_query_handler" ∨
     routeByQuestionType s = "asin_product_handler" ∨
     routeByQuestionType s = "hardcoded_response" ∨
     routeByQuestionType s = "other_handler") ∧
    routeByQuestionType { s with questionType := some "goal_query" } =
      "other_handler" ∧
    routeByQuestionType { s with questionType := some "dashboard_load" } =
      "other_handler" ∧
    routeByQuestionType { s with questionType := some "insight_query" } =
      "other_handler" ∧
    routeByQuestionType { s with questionType := some "other_query" } =
      "other_handler" := by
  refine ⟨?_, rfl, rfl, rfl, rfl⟩
  unfold routeByQuestionType
  dsimp only
  split_ifs <;> simp

/-! # Claim C1 -/

/-- Claim C1 counterexample: when the normalizer's model call fails on
every attempt (its error handler resets the retry counter to 0) while
the evaluator keeps judging the stale extraction invalid, the retry loop
is still running after 5 extraction attempts — it neither stays within 4
total attempts nor reaches an accepting state. -/
theorem retry_loop_exceeds_four_attempts :
    (runLoop ⟨2025, 1, 1⟩ (fun _ => failingNormOracle) 5 {} 0).exited = false ∧
    (runLoop ⟨2025, 1, 1⟩ (fun _ => failingNormOracle) 5 {} 0).attempts = 5 ∧
    (runLoop ⟨2025, 1, 1⟩ (fun _ => failingNormOracle) 5 {} 0).state.normalizerValid
      = some false :=
  ⟨rfl, rfl, rfl⟩

/-! # Claim C9 -/

/-- Claim C9: any utterance containing goal vocabulary is classified
`goal_query` regardless of everything else in the state — in particular a
product identifier or the word ASIN — because the goal rule precedes the
product-specific rule in the priority ladder. -/
theorem goal_rule_precedes_asin_rule (s : AgentState)
    (llm : Except String String) (h : isGoalQuery s.question = true) :
    classifyQuestionNode s llm = .ok { s with questionType := some "goal_query" } := by
  unfold classifyQuestionNode
  dsimp only
  split_ifs with h1 h2 <;> rfl

/-- Claim C9 witness: the theorem applied to an utterance that names a
goal, the word ASIN, and a concrete product identifier, with the
identifier also present in the state. -/
theorem goal_rule_precedes_asin_rule_witness :
    classifyQuestionNode goalAsinState (.ok "other_query") =
      .ok { goalAsinState with questionType := some "goal_query" } :=
  goal_rule_precedes_asin_rule goalAsinState (.ok "other_query") (by decide)

/-! # Control lemmas for the retry loop -/

theorem labelNormalizer_ok_control (cd : Date) (s : AgentState)
    (ext : LabelExtraction) :
    (labelNormalizerNode cd s (.ok ext)).normalizerValid =
      (if s.normalizerRetries.getD 0 = 0 then none else s.normalizerValid) ∧
    (labelNormalizerNode cd s (.ok ext)).normalizerRetries =
      (if s.normalizerRetries.getD 0 = 0 then some 0 else s.normalizerRetries) ∧
    (labelNormalizerNode cd s (.ok ext)).normalizerFeedback =
      (if s.normalizerRetries.getD 0 = 0 then none else s.normalizerFeedback) := by
  unfold labelNormalizerNode
  dsimp only
  split_ifs with h <;> exact ⟨rfl, rfl, rfl⟩

theorem messageAnalyzer_control (s : AgentState)
    (o : Except String MessageAnalysis) :
    (messageAnalyzerNode s o).normalizerValid = s.normalizerValid ∧
    (messageAnalyzerNode s o).normalizerRetries = s.normalizerRetries ∧
    (messageAnalyzerNode s o).normalizerFeedback = s.normalizerFeedback := by
  cases o <;> exact ⟨rfl, rfl, rfl⟩

theorem stage12_retries (cd : Date) (s : AgentState) (ext : LabelExtraction)
    (mo : Except String MessageAnalysis) :
    (messageAnalyzerNode (labelNormalizerNode cd s (.ok ext)) mo).normalizerRetries.getD 0
      = s.normalizerRetries.getD 0 := by
  rw [(messageAnalyzer_control _ _).2.1, (labelNormalizer_ok_control cd s ext).2.1]
  split_ifs with h <;> simp [h]

theorem loopIter_eval_ok (cd : Date) (s : AgentState) (o : IterOracle)
    (ext : LabelExtraction) (ev : EvaluationResult)
    (hn : o.norm = .ok ext) (he : o.eval = .ok ev)
    (hr : ¬ 3 ≤ s.normalizerRetries.getD 0) :
    (loopIter cd s o).normalizerValid = some ev.isValid ∧
    (loopIter cd s o).normalizerRetries =
      some (if !ev.isValid then s.normalizerRetries.getD 0 + 1
            else s.normalizerRetries.getD 0) := by
  unfold loopIter
  rw [hn, he]
  unfold extractorEvaluatorNode
  dsimp only
  rw [stage12_retries cd s ext o.msg]
  rw [if_neg hr]
  constructor <;> (split_ifs <;> rfl)

theorem loopIter_eval_err (cd : Date) (s : AgentState) (o : IterOracle)
    (ext : LabelExtraction) (e : String)
    (hn : o.norm = .ok ext) (he : o.eval = .error e) :
    (loopIter cd s o).normalizerValid = some true ∧
    (loopIter cd s o).normalizerRetries = some (s.normalizerRetries.getD 0) := by
  unfold loopIter
  rw [hn, he]
  unfold extractorEvaluatorNode
  dsimp only
  rw [stage12_retries cd s ext o.msg]
  split_ifs <;> exact ⟨rfl, rfl⟩

theorem route_of_valid (s : AgentState) (h : s.normalizerValid = some true) :
    routeAfterEvaluation s = "classifier" := by
  unfold routeAfterEvaluation
  dsimp only
  rw [h]
  rfl

theorem route_of_retries3 (s : AgentState) (h : s.normalizerRetries = some 3) :
    routeAfterEvaluation s = "classifier" := by
  unfold routeAfterEvaluation
  dsimp only
  rw [h]
  simp

theorem route_retry (s : AgentState) (h1 : s.normalizerValid = some false)
    (h2 : s.normalizerRetries.getD 0 < 3) :
    routeAfterEvaluation s = "label_normalizer" := by
  unfold routeAfterEvaluation
  dsimp only
  rw [h1]
  simp only [Option.getD_some, Bool.false_or]
  rw [if_neg]
  simp only [decide_eq_true_eq]
  omega

theorem runLoop_exit (cd : Date) (oracle : Nat → IterOracle) (fuel : Nat)
    (s : AgentState) (k : Nat)
    (h : routeAfterEvaluation (loopIter cd s (oracle k)) = "classifier") :
    runLoop cd oracle (fuel + 1) s k = ⟨loopIter cd s (oracle k), k + 1, true⟩ := by
  conv_lhs => rw [runLoop]
  rw [if_pos h]

theorem runLoop_continue (cd : Date) (oracle : Nat → IterOracle) (fuel : Nat)
    (s : AgentState) (k : Nat)
    (h : routeAfterEvaluation (loopIter cd s (oracle k)) = "label_normalizer") :
    runLoop cd oracle (fuel + 1) s k =
      runLoop cd oracle fuel (loopIter cd s (oracle k)) (k + 1) := by
  have hne : ¬(routeAfterEvaluation (loopIter cd s (oracle k)) = "classifier") := by
    rw [h]; decide
  conv_lhs => rw [runLoop]
  rw [if_neg hne]

/-- Claim C1 amended: the routing predicate leaves the loop exactly when
the verdict is valid or the counter has reached 3; when every extraction
attempt completes without an extractor-level error, the loop performs at
most 3 extraction attempts (not 4) and always exits to the classifier —
but when it exits because the counter reached 3 after a failed
validation, the verdict remains invalid (`is_valid = False`), as the
concrete always-invalid run shows; the verdict is not forced valid by
the exit. (The evaluator's force-valid branch fires only when entered
with a counter already at 3, which the routing prevents.) -/
theorem retry_loop_bounded_when_extraction_succeeds :
    (∀ s : AgentState,
      routeAfterEvaluation s = "classifier" ↔
        (s.normalizerValid.getD false = true ∨ 3 ≤ s.normalizerRetries.getD 0)) ∧
    (∀ (currentDate : Date) (oracle : Nat → IterOracle) (s0 : AgentState),
      (∀ k, ∃ ext, (oracle k).norm = .ok ext) →
      s0.normalizerRetries = none →
      (runLoop currentDate oracle 4 s0 0).exited = true ∧
      (runLoop currentDate oracle 4 s0 0).attempts ≤ 3 ∧
      ((runLoop currentDate oracle 4 s0 0).state.normalizerValid = some true ∨
        (runLoop currentDate oracle 4 s0 0).state.normalizerRetries = some 3)) ∧
    ((runLoop ⟨2025, 1, 1⟩ (fun _ => alwaysInvalidOracle) 4 {} 0).exited = true ∧
     (runLoop ⟨2025, 1, 1⟩ (fun _ => alwaysInvalidOracle) 4 {} 0).attempts = 3 ∧
     (runLoop ⟨2025, 1, 1⟩ (fun _ => alwaysInvalidOracle) 4 {} 0).state.normalizerValid
       = some false) := by
  refine ⟨?_, ?_, rfl, rfl, rfl⟩
  · intro s
    unfold routeAfterEvaluation
    dsimp only
    split_ifs with hc
    · simp only [Bool.or_eq_true, decide_eq_true_eq] at hc
      simpa using hc
    · simp only [Bool.or_eq_true, decide_eq_true_eq] at hc
      push_neg at hc
      constructor
      · intro he
        exact absurd he (by decide)
      · intro hor
        rcases hor with h | h
        · exact absurd h hc.1
        · exact absurd h (by omega)
  · intro currentDate oracle s0 hok h0
    obtain ⟨e0, he0⟩ := hok 0
    obtain ⟨e1, he1⟩ := hok 1
    obtain ⟨e2, he2⟩ := hok 2
    have hg0 : s0.normalizerRetries.getD 0 = 0 := by rw [h0]; rfl
    cases hev0 : (oracle 0).eval with
    | error e =>
      have hc := loopIter_eval_err currentDate s0 (oracle 0) e0 e he0 hev0
      rw [runLoop_exit currentDate oracle 3 s0 0 (route_of_valid _ hc.1)]
      exact ⟨rfl, show (0 + 1 : Nat) ≤ 3 by decide, Or.inl hc.1⟩
    | ok ev0 =>
      have hc := loopIter_eval_ok currentDate s0 (oracle 0) e0 ev0 he0 hev0 (by omega)
      cases hb0 : ev0.isValid with
      | true =>
        have hv1 : (loopIter currentDate s0 (oracle 0)).normalizerValid = some true := by
          rw [hc.1, hb0]
        rw [runLoop_exit currentDate oracle 3 s0 0 (route_of_valid _ hv1)]
        exact ⟨rfl, show (0 + 1 : Nat) ≤ 3 by decide, Or.inl hv1⟩
      | false =>
        have hv1 : (loopIter currentDate s0 (oracle 0)).normalizerValid = some false := by
          rw [hc.1, hb0]
        have hr1 : (loopIter currentDate s0 (oracle 0)).normalizerRetries = some 1 := by
          rw [hc.2, hb0, hg0]
          rfl
        rw [runLoop_continue currentDate oracle 3 s0 0
          (route_retry _ hv1 (by rw [hr1]; decide))]
        set s1 := loopIter currentDate s0 (oracle 0) with hs1
        have hg1 : s1.normalizerRetries.getD 0 = 1 := by rw [hr1]; rfl
        cases hev1 : (oracle 1).eval with
        | error e =>
          have hc1 := loopIter_eval_err currentDate s1 (oracle 1) e1 e he1 hev1
          rw [runLoop_exit currentDate oracle 2 s1 1 (route_of_valid _ hc1.1)]
          exact ⟨rfl, show (1 + 1 : Nat) ≤ 3 by decide, Or.inl hc1.1⟩
        | ok ev1 =>
          have hc1 := loopIter_eval_ok currentDate s1 (oracle 1) e1 ev1 he1 hev1
            (by rw [hg1]; omega)
          cases hb1 : ev1.isValid with
          | true =>
            have hv2 : (loopIter currentDate s1 (oracle 1)).normalizerValid = some true := by
              rw [hc1.1, hb1]
            rw [runLoop_exit currentDate oracle 2 s1 1 (route_of_valid _ hv2)]
            exact ⟨rfl, show (1 + 1 : Nat) ≤ 3 by decide, Or.inl hv2⟩
          | false =>
            have hv2 : (loopIter currentDate s1 (oracle 1)).normalizerValid = some false := by
              rw [hc1.1, hb1]
            have hr2 : (loopIter currentDate s1 (oracle 1)).normalizerRetries = some 2 := by
              rw [hc1.2, hb1, hg1]
              rfl
            rw [runLoop_continue currentDate oracle 2 s1 1
              (route_retry _ hv2 (by rw [hr2]; decide))]
            set s2 := loopIter currentDate s1 (oracle 1) with hs2
            have hg2 : s2.normalizerRetries.getD 0 = 2 := by rw [hr2]; rfl
            cases hev2 : (oracle 2).eval with
            | error e =>
              have hc2 := loopIter_eval_err currentDate s2 (oracle 2) e2 e he2 hev2
              rw [runLoop_exit currentDate oracle 1 s2 2 (route_of_valid _ hc2.1)]
              exact ⟨rfl, show (2 + 1 : Nat) ≤ 3 by decide, Or.inl hc2.1⟩
            | ok ev2 =>
              have hc2 := loopIter_eval_ok currentDate s2 (oracle 2) e2 ev2 he2 hev2
                (by rw [hg2]; omega)
              cases hb2 : ev2.isValid with
              | true =>
                have hv3 : (loopIter currentDate s2 (oracle 2)).normalizerValid
                    = some true := by
                  rw [hc2.1, hb2]
                rw [runLoop_exit currentDate oracle 1 s2 2 (route_of_valid _ hv3)]
                exact ⟨rfl, show (2 + 1 : Nat) ≤ 3 by decide, Or.inl hv3⟩
              | false =>
                have hr3 : (loopIter currentDate s2 (oracle 2)).normalizerRetries
                    = some 3 := by
                  rw [hc2.2, hb2, hg2]
                  rfl
                rw [runLoop_exit currentDate oracle 1 s2 2 (route_of_retries3 _ hr3)]
                exact ⟨rfl, show (2 + 1 : Nat) ≤ 3 by decide, Or.inr hr3⟩

/-- Claim C1 witness: the bounded-loop part of the theorem applied to the
concrete always-invalid oracle from a fresh state. -/
theorem retry_loop_bounded_when_extraction_succeeds_witness :
    (runLoop ⟨2025, 1, 1⟩ (fun _ => alwaysInvalidOracle) 4 {} 0).exited = true ∧
    (runLoop ⟨2025, 1, 1⟩ (fun _ => alwaysInvalidOracle) 4 {} 0).attempts ≤ 3 ∧
    ((runLoop ⟨2025, 1, 1⟩ (fun _ => alwaysInvalidOracle) 4 {} 0).state.normalizerValid
        = some true ∨
     (runLoop ⟨2025, 1, 1⟩ (fun _ => alwaysInvalidOracle) 4 {} 0).state.normalizerRetries
        = some 3) :=
  retry_loop_bounded_when_extraction_succeeds.2.1 ⟨2025, 1, 1⟩
    (fun _ => alwaysInvalidOracle) {}
    (fun _ => ⟨{ dateStartLabel := "today", dateEndLabel := "today" }, rfl⟩)
    rfl

end Nyle
